/-
Verification of the nutrition reconciliation subsystem of the fuel-rx
repository: a shallow embedding in Lean 4 of the unit-conversion module
(src/lib/unit-conversions.ts), the USDA ingredient lookup / cache module
(src/lib/usda.ts), and a spec-modelled plan validator, together with
theorems settling the frozen claims about them.

Modelling conventions:
  - JavaScript numbers are modelled by exact rationals; all constants in
    the source tables are exact decimal literals, so table arithmetic is
    exact.
  - JavaScript strings are Lean strings; toLowerCase and trim are modelled
    over the underlying character list (ASCII case mapping, the same
    whitespace set as Char.isWhitespace).
  - parseFloat is modelled by jsParseFloat, parsing an optional-signed
    decimal literal with optional fraction and exponent from the front of
    the string; an unparseable string yields none, the NaN case.  The JS
    Infinity literal lies outside the rational model and is not modelled.
  - JS truthiness on numbers (zero is falsy) is made explicit wherever the
    source branches on a looked-up number.
  - Effectful code (database reads, HTTP fetches, upserts) is modelled by
    an explicit environment record supplying the outcome of each external
    interaction; the Option/Except result encodes success or failure.
-/
import Mathlib

attribute [local semireducible] Rat.mul Rat.add Rat.inv Rat.sub Rat.ofScientific

namespace FuelRx

/-! ## JS string primitives -/

/-- Characters dropped by JS String.trim, modelled with the core whitespace set. -/
def wsChar (c : Char) : Bool := c.isWhitespace

/-- Drop leading whitespace from a character list (left half of trim). -/
def ltrimChars (l : List Char) : List Char := l.dropWhile wsChar

/-- Drop trailing whitespace from a character list (right half of trim). -/
def rtrimChars (l : List Char) : List Char := (l.reverse.dropWhile wsChar).reverse

/-- Model of JS `s.toLowerCase()` (ASCII case mapping). -/
def jsToLower (s : String) : String := ⟨s.data.map Char.toLower⟩

/-- Model of JS `s.toLowerCase().trim()`, the normalization applied to unit
and ingredient strings throughout the source. -/
def jsLowerTrim (s : String) : String := ⟨rtrimChars (ltrimChars (s.data.map Char.toLower))⟩

/-- Model of JS `s.includes(sub)`: `sub` occurs as a contiguous substring. -/
def strIncludes (s sub : String) : Bool := decide (sub.data <:+: s.data)

/-- Numeric value of a decimal digit character. -/
def digitVal (c : Char) : Nat := c.toNat - 48

/-- Value of a digit list read most-significant first. -/
def natOfDigits (l : List Char) : Nat := l.foldl (fun a c => a * 10 + digitVal c) 0

/-- Integer power of ten over the rationals, explicit so that it evaluates. -/
def qPow10 (e : Int) : ℚ :=
  if 0 ≤ e then ((10 : ℚ) ^ e.toNat) else 1 / ((10 : ℚ) ^ (-e).toNat)

/-- Model of JS `parseFloat`: skip leading whitespace, optional sign, then
the longest prefix of the form `digits [. digits] [e [sign] digits]` with at
least one digit in the integer or fraction part; `none` models `NaN`.
(The JS `Infinity` literal is outside the rational model.) -/
def jsParseFloat (s : String) : Option ℚ :=
  let l0 := s.data.dropWhile wsChar
  let sgn : ℚ := match l0 with
    | '-' :: _ => -1
    | _ => 1
  let l1 := match l0 with
    | '-' :: t => t
    | '+' :: t => t
    | _ => l0
  let intPart := l1.takeWhile Char.isDigit
  let l2 := l1.dropWhile Char.isDigit
  let fracPart := match l2 with
    | '.' :: t => t.takeWhile Char.isDigit
    | _ => []
  let l3 := match l2 with
    | '.' :: t => t.dropWhile Char.isDigit
    | _ => l2
  if intPart.isEmpty && fracPart.isEmpty then none
  else
    let mantissa : ℚ :=
      (natOfDigits intPart : ℚ) + (natOfDigits fracPart : ℚ) / ((10 : ℚ) ^ fracPart.length)
    let expo : Int := match l3 with
      | 'e' :: t =>
        let esgn : Int := match t with
          | '-' :: _ => -1
          | _ => 1
        let t2 := match t with
          | '-' :: r => r
          | '+' :: r => r
          | _ => t
        let ds := t2.takeWhile Char.isDigit
        if ds.isEmpty then 0 else esgn * (natOfDigits ds : Int)
      | 'E' :: t =>
        let esgn : Int := match t with
          | '-' :: _ => -1
          | _ => 1
        let t2 := match t with
          | '-' :: r => r
          | '+' :: r => r
          | _ => t
        let ds := t2.takeWhile Char.isDigit
        if ds.isEmpty then 0 else esgn * (natOfDigits ds : Int)
      | _ => 0
    some (sgn * mantissa * qPow10 expo)

/-- Lookup in an association list modelling a JS object literal; the list
order is the object's insertion order. -/
def lookupTable (table : List (String × ℚ)) (k : String) : Option ℚ :=
  (table.find? (fun p => p.1 = k)).map (fun p => p.2)

/-- JS truthiness filter on a looked-up number: `undefined` and `0` are falsy. -/
def truthyLookup (table : List (String × ℚ)) (k : String) : Option ℚ :=
  match lookupTable table k with
  | some v => if v = 0 then none else some v
  | none => none

/-! ## src/lib/unit-conversions.ts -/

/-- Conversion factors to grams (source table UNIT_TO_GRAMS, in insertion
order of the object literal). -/
def UNIT_TO_GRAMS : List (String × ℚ) :=
  [("g", 1), ("gram", 1), ("grams", 1),
   ("kg", 1000), ("kilogram", 1000), ("kilograms", 1000),
   ("oz", 28.3495), ("ounce", 28.3495), ("ounces", 28.3495),
   ("lb", 453.592), ("lbs", 453.592), ("pound", 453.592), ("pounds", 453.592),
   ("ml", 1), ("milliliter", 1), ("milliliters", 1),
   ("l", 1000), ("liter", 1000), ("liters", 1000),
   ("cup", 240), ("cups", 240),
   ("tbsp", 15), ("tablespoon", 15), ("tablespoons", 15),
   ("tsp", 5), ("teaspoon", 5), ("teaspoons", 5),
   ("fl oz", 29.5735), ("fluid ounce", 29.5735), ("fluid ounces", 29.5735)]

/-- Density adjustments for common ingredient categories (source table
DENSITY_MULTIPLIERS, in insertion order). -/
def DENSITY_MULTIPLIERS : List (String × ℚ) :=
  [("water", 1), ("milk", 1.03), ("olive oil", 0.92), ("oil", 0.92),
   ("honey", 1.42), ("maple syrup", 1.37),
   ("flour", 0.53), ("almond flour", 0.48), ("coconut flour", 0.45),
   ("protein powder", 0.4), ("cocoa powder", 0.45),
   ("sugar", 0.85), ("brown sugar", 0.83),
   ("rice", 0.75), ("oats", 0.35), ("rolled oats", 0.35), ("quinoa", 0.73),
   ("spinach", 0.25), ("lettuce", 0.2), ("kale", 0.25), ("mixed greens", 0.22),
   ("almonds", 0.6), ("walnuts", 0.55),
   ("peanut butter", 1.05), ("almond butter", 1.05),
   ("greek yogurt", 1.05), ("yogurt", 1.03), ("cottage cheese", 0.95),
   ("cheese", 0.9), ("butter", 0.91)]

/-- Standard item weights for count units (source table ITEM_WEIGHTS_GRAMS,
in insertion order). -/
def ITEM_WEIGHTS_GRAMS : List (String × ℚ) :=
  [("egg", 50), ("eggs", 50), ("large egg", 50), ("large eggs", 50),
   ("banana", 118), ("bananas", 118), ("apple", 182), ("apples", 182),
   ("orange", 131), ("oranges", 131), ("avocado", 150), ("avocados", 150),
   ("chicken breast", 174), ("chicken breasts", 174),
   ("salmon fillet", 170), ("salmon fillets", 170),
   ("sweet potato", 130), ("sweet potatoes", 130),
   ("potato", 150), ("potatoes", 150), ("tomato", 123), ("tomatoes", 123),
   ("onion", 110), ("onions", 110),
   ("garlic", 3), ("garlic clove", 3), ("garlic cloves", 3),
   ("clove", 3), ("cloves", 3),
   ("lemon", 58), ("lemons", 58), ("lime", 44), ("limes", 44),
   ("slice", 30), ("slices", 30), ("piece", 100), ("pieces", 100)]

/-- Confidence tag of a conversion result. -/
inductive Confidence
  | high
  | medium
  | low
deriving DecidableEq, Repr

/-- Result of convertToGrams. -/
structure ConversionResult where
  grams : ℚ
  confidence : Confidence
deriving DecidableEq, Repr

/-- Source isCountableItem: the unit is a countable token, empty, or itself
parses as a number.  The ingredient parameter is accepted but unused, as in
the source. -/
def countableUnits : List String :=
  ["large", "medium", "small", "whole", "piece", "pieces",
   "slice", "slices", "clove", "cloves", "fillet", "fillets",
   "breast", "breasts", "thigh", "thighs", ""]

/-- Source isCountableItem(unit, ingredient). -/
def isCountableItem (unit ingredient : String) : Bool :=
  countableUnits.contains unit || unit = "" || (jsParseFloat unit).isSome

/-- Source isVolumeUnit(unit). -/
def volumeUnits : List String :=
  ["ml", "milliliter", "milliliters", "l", "liter", "liters",
   "cup", "cups", "tbsp", "tablespoon", "tablespoons",
   "tsp", "teaspoon", "teaspoons", "fl oz", "fluid ounce", "fluid ounces"]

/-- Source isVolumeUnit(unit). -/
def isVolumeUnit (unit : String) : Bool := volumeUnits.contains unit

/-- Source getItemWeight partial-match loop: first table entry (in insertion
order) whose key contains the ingredient or is contained in it.  The loop
returns a matched weight without a truthiness check. -/
def itemPartialMatch (ingredient : String) : Option ℚ :=
  (ITEM_WEIGHTS_GRAMS.find? fun p =>
    strIncludes ingredient p.1 || strIncludes p.1 ingredient).map (fun p => p.2)

/-- Source getItemWeight(ingredient): direct (truthy) table entry first, then
the partial-match scan, else null. -/
def getItemWeight (ingredient : String) : Option ℚ :=
  match lookupTable ITEM_WEIGHTS_GRAMS ingredient with
  | some w => if w = 0 then itemPartialMatch ingredient else some w
  | none => itemPartialMatch ingredient

/-- Source getDensityMultiplier partial-match loop. -/
def densityPartialMatch (ingredient : String) : Option ℚ :=
  (DENSITY_MULTIPLIERS.find? fun p =>
    strIncludes ingredient p.1 || strIncludes p.1 ingredient).map (fun p => p.2)

/-- Source getDensityMultiplier(ingredient): direct (truthy) entry first,
then the partial-match scan, defaulting to 1 (water-like density). -/
def getDensityMultiplier (ingredient : String) : ℚ :=
  match lookupTable DENSITY_MULTIPLIERS ingredient with
  | some m =>
    if m = 0 then
      match densityPartialMatch ingredient with
      | some m2 => m2
      | none => 1
    else m
  | none =>
    match densityPartialMatch ingredient with
    | some m2 => m2
    | none => 1

/-- JS truthiness on getItemWeight's number-or-null result: the source tests
`if (itemWeight)`, so null and 0 both fail. -/
def truthyItemWeight (ingredient : String) : Option ℚ :=
  match getItemWeight ingredient with
  | some w => if w = 0 then none else some w
  | none => none

/-- Continuation of convertToGrams after the countable-item branch falls
through: direct unit conversion (with density adjustment for volume units),
then the item-weight fallback, then the 100g-per-unit last resort. -/
def convertAfterCountable (numericAmount : ℚ) (unit ingredient : String) : ConversionResult :=
  match truthyLookup UNIT_TO_GRAMS unit with
  | some baseConversion =>
    if isVolumeUnit unit then
      let densityMultiplier := getDensityMultiplier ingredient
      { grams := numericAmount * baseConversion * densityMultiplier,
        confidence := if densityMultiplier ≠ 1 then .high else .medium }
    else
      { grams := numericAmount * baseConversion, confidence := .high }
  | none =>
    match truthyItemWeight ingredient with
    | some itemWeight => { grams := numericAmount * itemWeight, confidence := .medium }
    | none => { grams := numericAmount * 100, confidence := .low }

/-- Source convertToGrams(amount, unit, ingredientName). -/
def convertToGrams (amount unit ingredientName : String) : ConversionResult :=
  match jsParseFloat amount with
  | none => { grams := 100, confidence := .low }
  | some numericAmount =>
    let normalizedUnit := jsLowerTrim unit
    let normalizedIngredient := jsLowerTrim ingredientName
    if isCountableItem normalizedUnit normalizedIngredient then
      match truthyItemWeight normalizedIngredient with
      | some itemWeight => { grams := numericAmount * itemWeight, confidence := .high }
      | none => convertAfterCountable numericAmount normalizedUnit normalizedIngredient
    else convertAfterCountable numericAmount normalizedUnit normalizedIngredient

/-! ## src/lib/usda.ts -/

/-- Cache expiration in days (source CACHE_EXPIRATION_DAYS). -/
def CACHE_EXPIRATION_DAYS : ℚ := 90

/-- Source USDAFood: a search candidate. -/
structure USDAFood where
  fdcId : Int
  description : String
  score : Option ℚ
deriving DecidableEq, Repr

/-- Source NutritionalData: extracted per-100g macros. -/
structure NutritionalData where
  fdcId : Int
  calories : ℚ
  protein : ℚ
  carbs : ℚ
  fat : ℚ
deriving DecidableEq, Repr

/-- Source CachedIngredient row as returned to callers. -/
structure CachedIngredient where
  ingredient_name : String
  fdc_id : Int
  calories_per_100g : ℚ
  protein_per_100g : ℚ
  carbs_per_100g : ℚ
  fat_per_100g : ℚ
deriving DecidableEq, Repr

/-- Nested nutrient record of the USDA response (source USDANutrient.nutrient). -/
structure NestedNutrient where
  name : String
  number : String
  unitName : String
deriving DecidableEq, Repr

/-- Source USDANutrient: one entry of a raw nutrient list, in the flat or the
nested shape; absent JSON fields are `none`. -/
structure USDANutrient where
  nutrientName : Option String
  nutrientNumber : Option String
  value : Option ℚ
  amount : Option ℚ
  unitName : Option String
  nutrient : Option NestedNutrient
deriving DecidableEq, Repr

/-- Source USDAFoodDetails: the details response body.  foodNutrients is
optional here because extractNutrients guards it with `|| []`. -/
structure USDAFoodDetails where
  fdcId : Int
  description : String
  foodNutrients : Option (List USDANutrient)
deriving DecidableEq, Repr

/-- JS `a || b` on a possibly-undefined string: undefined and the empty
string are falsy. -/
def jsOrString (a : Option String) (b : String) : String :=
  match a with
  | some s => if s = "" then b else s
  | none => b

/-- Source: `n.nutrientName || n.nutrient?.name || ''`. -/
def nutrientNameOf (n : USDANutrient) : String :=
  jsOrString n.nutrientName (jsOrString (n.nutrient.map (fun x => x.name)) "")

/-- Source: `n.nutrientNumber || n.nutrient?.number || ''`. -/
def nutrientNumberOf (n : USDANutrient) : String :=
  jsOrString n.nutrientNumber (jsOrString (n.nutrient.map (fun x => x.number)) "")

/-- Source: `n.value ?? n.amount ?? 0` (nullish coalescing: 0 is kept). -/
def nutrientValueOf (n : USDANutrient) : ℚ :=
  match n.value with
  | some v => v
  | none => n.amount.getD 0

/-- USDA nutrient names for calories (source calorieNames). -/
def calorieNames : List String := ["energy", "energy (atwater general factors)"]

/-- USDA nutrient names for protein (source proteinNames). -/
def proteinNames : List String := ["protein"]

/-- USDA nutrient names for carbs (source carbNames). -/
def carbNames : List String := ["carbohydrate, by difference", "carbohydrates"]

/-- USDA nutrient names for fat (source fatNames). -/
def fatNames : List String := ["total lipid (fat)", "total fat"]

/-- USDA nutrient numbers for calories (source NUTRIENT_NUMBERS.calories). -/
def caloriesNumbers : List String := ["208", "957"]

/-- USDA nutrient numbers for protein. -/
def proteinNumbers : List String := ["203"]

/-- USDA nutrient numbers for carbs. -/
def carbsNumbers : List String := ["205"]

/-- USDA nutrient numbers for fat. -/
def fatNumbers : List String := ["204"]

/-- Source findNutrient closure inside extractNutrients: scan the nutrient
list; for each entry try the number match first, then the (truthy,
case-insensitive) name match; unmatched lists yield 0. -/
def findNutrient (names numbers : List String) : List USDANutrient → ℚ
  | [] => 0
  | n :: rest =>
    if numbers.contains (nutrientNumberOf n) then nutrientValueOf n
    else if nutrientNameOf n ≠ "" && names.contains (jsToLower (nutrientNameOf n)) then
      nutrientValueOf n
    else findNutrient names numbers rest

/-- Source extractNutrients(food). -/
def extractNutrients (food : USDAFoodDetails) : NutritionalData :=
  let nutrients := food.foodNutrients.getD []
  { fdcId := food.fdcId
    calories := findNutrient calorieNames caloriesNumbers nutrients
    protein := findNutrient proteinNames proteinNumbers nutrients
    carbs := findNutrient carbNames carbsNumbers nutrients
    fat := findNutrient fatNames fatNumbers nutrients }

/-- Source normalizeIngredientName synonym table (the `normalizations`
object literal, in insertion order). -/
def normalizationsTable : List (String × String) :=
  [("chicken breast", "chicken broilers breast meat raw"),
   ("ground beef", "beef ground raw"),
   ("ground turkey", "turkey ground raw"),
   ("salmon", "salmon atlantic raw"),
   ("salmon fillet", "salmon atlantic raw"),
   ("brown rice", "rice brown long-grain raw"),
   ("white rice", "rice white long-grain raw"),
   ("sweet potato", "sweet potato raw"),
   ("broccoli", "broccoli raw"),
   ("spinach", "spinach raw"),
   ("olive oil", "oil olive salad or cooking"),
   ("coconut oil", "oil coconut"),
   ("greek yogurt", "yogurt greek plain"),
   ("egg", "egg whole raw"),
   ("eggs", "egg whole raw"),
   ("oats", "oats regular or quick"),
   ("rolled oats", "oats regular or quick"),
   ("almond butter", "almond butter plain"),
   ("peanut butter", "peanut butter smooth"),
   ("banana", "banana raw"),
   ("apple", "apple raw"),
   ("avocado", "avocado raw"),
   ("almonds", "almonds raw"),
   ("walnuts", "walnuts raw")]

/-- Lookup in the synonym table (JS object indexing). -/
def lookupNormalization (k : String) : Option String :=
  (normalizationsTable.find? (fun p => p.1 = k)).map (fun p => p.2)

/-- Source normalizeIngredientName(name): `normalizations[lowerName] ||
lowerName`; the JS `||` falls back when the mapped value is absent (or would
be the empty string, which the table never contains). -/
def normalizeIngredientName (name : String) : String :=
  let lowerName := jsLowerTrim name
  match lookupNormalization lowerName with
  | some v => if v = "" then lowerName else v
  | none => lowerName

/-- One row of the usda_ingredients table as read back from the store; the
DECIMAL columns arrive as strings that the source re-parses with parseFloat,
modelled here by their numeric values, and updated_at is the stored
timestamp in milliseconds since the epoch. -/
structure CacheRow where
  ingredient_name : String
  fdc_id : Int
  calories_per_100g : ℚ
  protein_per_100g : ℚ
  carbs_per_100g : ℚ
  fat_per_100g : ℚ
  updated_at : ℚ
deriving DecidableEq, Repr

/-- One entry of the search response's foods array (source
USDAFoodSearchResult.foods element). -/
structure SearchFoodEntry where
  fdcId : Int
  description : String
  score : Option ℚ
  foodNutrients : Option (List USDANutrient)
deriving DecidableEq, Repr

/-- Environment supplying the outcome of every external interaction of
usda.ts: the configured API key, the cache read (`some` = a row came back
without error from `.single()`), the two HTTP endpoints (`none` = network
failure or a non-ok status), and whether the cache upsert reports an error. -/
structure UsdaEnv where
  hasApiKey : Bool
  cacheRow : String → Option CacheRow
  searchResponse : String → Option (List SearchFoodEntry)
  detailsResponse : Int → Option USDAFoodDetails
  upsertError : Bool

/-- Source searchFood(query): throws without an API key, normalizes the
query through the synonym table, performs the search fetch, and maps the
foods array to USDAFood records. -/
def searchFood (env : UsdaEnv) (query : String) : Except Unit (List USDAFood) :=
  if !env.hasApiKey then .error ()
  else
    let normalizedQuery := normalizeIngredientName query
    match env.searchResponse normalizedQuery with
    | none => .error ()
    | some data => .ok (data.map (fun food => ⟨food.fdcId, food.description, food.score⟩))

/-- Source getFoodDetails(fdcId): throws without an API key, performs the
details fetch, and extracts the nutrients. -/
def getFoodDetails (env : UsdaEnv) (fdcId : Int) : Except Unit NutritionalData :=
  if !env.hasApiKey then .error ()
  else
    match env.detailsResponse fdcId with
    | none => .error ()
    | some data => .ok (extractNutrients data)

/-- Step 1 of getOrFetchIngredient: the cache fast path.  Returns the cached
profile when a row exists and `(now - updated_at) / (1000*60*60*24) < 90`. -/
def cacheHit (env : UsdaEnv) (now : ℚ) (normalizedName : String) : Option CachedIngredient :=
  match env.cacheRow normalizedName with
  | some cached =>
    let daysSinceUpdate := (now - cached.updated_at) / (1000 * 60 * 60 * 24)
    if daysSinceUpdate < CACHE_EXPIRATION_DAYS then
      some ⟨cached.ingredient_name, cached.fdc_id, cached.calories_per_100g,
            cached.protein_per_100g, cached.carbs_per_100g, cached.fat_per_100g⟩
    else none
  | none => none

/-- Outcome of getOrFetchIngredient, instrumented with whether the provider
search (searchFood) was invoked. -/
structure FetchOutcome where
  result : Option CachedIngredient
  searchCalled : Bool
deriving DecidableEq, Repr

/-- The try block of getOrFetchIngredient (steps 2 and 3 of the source):
search, take the best match (first result), fetch its details; any thrown
error is caught and becomes null, as does an empty result list.  The upsert
after a successful fetch only logs on error, so the returned value does not
depend on the upsert outcome. -/
def fetchFromProvider (env : UsdaEnv) (normalizedName : String) : Option CachedIngredient :=
  match searchFood env normalizedName with
  | .error _ => none
  | .ok searchResults =>
    match searchResults with
    | [] => none
    | bestMatch :: _ =>
      match getFoodDetails env bestMatch.fdcId with
      | .error _ => none
      | .ok nutritionData =>
        some ⟨normalizedName, nutritionData.fdcId, nutritionData.calories,
              nutritionData.protein, nutritionData.carbs, nutritionData.fat⟩

/-- Source getOrFetchIngredient(name): cache-first lookup with staleness
check, then the provider search-then-details flow inside a try/catch whose
catch returns null.  `now` is the clock reading taken by `new Date()`, in
milliseconds. -/
def getOrFetchIngredient (env : UsdaEnv) (now : ℚ) (name : String) : FetchOutcome :=
  let normalizedName := jsLowerTrim name
  match cacheHit env now normalizedName with
  | some r => { result := some r, searchCalled := false }
  | none => { result := fetchFromProvider env normalizedName, searchCalled := true }

/-- Macros of a concrete ingredient amount. -/
structure Macros where
  calories : ℚ
  protein : ℚ
  carbs : ℚ
  fat : ℚ
deriving DecidableEq, Repr

/-- JS Math.round: round half toward positive infinity. -/
def jsRound (x : ℚ) : ℚ := (Rat.floor (x + 1/2) : ℤ)

/-- Source calculateMacrosForAmount(ingredientData, amountInGrams). -/
def calculateMacrosForAmount (ingredientData : CachedIngredient) (amountInGrams : ℚ) : Macros :=
  let factor := amountInGrams / 100
  { calories := jsRound (ingredientData.calories_per_100g * factor)
    protein := jsRound (ingredientData.protein_per_100g * factor * 10) / 10
    carbs := jsRound (ingredientData.carbs_per_100g * factor * 10) / 10
    fat := jsRound (ingredientData.fat_per_100g * factor * 10) / 10 }

/-! ## Plan Validator/Adjuster (spec-modelled)

The validator module (`nutrition-validator.ts`, spec section 4.6) is not
present under src/ — only the repository's design document and the spec
describe it — so it is modelled here from the spec's words. -/

/-- Modelled from the spec: the user's daily macro targets (UserTargets,
spec section 3), read-only input to the validator. -/
structure UserTargets where
  target_calories : ℚ
  target_protein : ℚ
  target_carbs : ℚ
  target_fat : ℚ
deriving DecidableEq, Repr

/-- Modelled from the spec: one ingredient line of a plan, carrying the
gram quantity obtained upstream from the section-4.2 conversion of its
stated amount/unit, and the initial macro estimate supplied by the
generative model. -/
structure PlanIngredient where
  name : String
  grams : ℚ
  estimate : Macros
deriving DecidableEq, Repr

/-- Modelled from the spec: a meal as an ordered ingredient sequence. -/
structure PlanMeal where
  name : String
  ingredients : List PlanIngredient
deriving DecidableEq, Repr

/-- Modelled from the spec: a day as an ordered meal sequence. -/
structure PlanDay where
  day : String
  meals : List PlanMeal
deriving DecidableEq, Repr

/-- Modelled from the spec: tolerance band of 5 percent. -/
def TOLERANCE : ℚ := 5 / 100

/-- Modelled from the spec: the fixed maximum iteration count bounding the
adjustment retry loop (spec section 4.6 step 6 allows 3 to 5; 3 chosen). -/
def MAX_ADJUSTMENT_ITERATIONS : Nat := 3

/-- Sum of two macro records. -/
def addMacros (a b : Macros) : Macros :=
  ⟨a.calories + b.calories, a.protein + b.protein, a.carbs + b.carbs, a.fat + b.fat⟩

/-- Zero macros. -/
def zeroMacros : Macros := ⟨0, 0, 0, 0⟩

/-- Modelled from the spec (section 4.6 step 1): an ingredient's macros are
refreshed from a successful lookup (normalize, cache-or-fetch, then scale
with calculateMacrosForAmount), and on lookup failure the prior estimate is
retained. -/
def ingredientMacros (lookup : String → Option CachedIngredient) (ing : PlanIngredient) : Macros :=
  match lookup (normalizeIngredientName ing.name) with
  | some profile => calculateMacrosForAmount profile ing.grams
  | none => ing.estimate

/-- Modelled from the spec (section 4.6 step 2): a meal's aggregate macros
are the sum of its ingredients' macro snapshots. -/
def mealMacros (lookup : String → Option CachedIngredient) (meal : PlanMeal) : Macros :=
  meal.ingredients.foldl (fun acc ing => addMacros acc (ingredientMacros lookup ing)) zeroMacros

/-- Modelled from the spec (section 4.6 step 3): daily totals are the sum of
meal macros. -/
def dayTotals (lookup : String → Option CachedIngredient) (d : PlanDay) : Macros :=
  d.meals.foldl (fun acc meal => addMacros acc (mealMacros lookup meal)) zeroMacros

/-- Modelled from the spec (section 4.6 step 4): per-channel variance
`(actual - target) / target`. -/
def dayVariance (lookup : String → Option CachedIngredient) (t : UserTargets) (d : PlanDay) : Macros :=
  let totals := dayTotals lookup d
  ⟨(totals.calories - t.target_calories) / t.target_calories,
   (totals.protein - t.target_protein) / t.target_protein,
   (totals.carbs - t.target_carbs) / t.target_carbs,
   (totals.fat - t.target_fat) / t.target_fat⟩

/-- Modelled from the spec (section 4.6 step 5): the day needs no adjustment
when no channel's absolute variance exceeds the 5 percent tolerance. -/
def withinTolerance (v : Macros) : Bool :=
  |v.calories| ≤ TOLERANCE && |v.protein| ≤ TOLERANCE &&
  |v.carbs| ≤ TOLERANCE && |v.fat| ≤ TOLERANCE

/-- Modelled from the spec (section 4.6 step 5): the single combined scale
factor `target_total / actual_total`, taken on the calorie channel and
applied uniformly across the day's ingredients. -/
def scaleFactor (totals : Macros) (t : UserTargets) : ℚ :=
  t.target_calories / totals.calories

/-- Modelled from the spec: scale every ingredient amount in the day
proportionally. -/
def scaleDay (f : ℚ) (d : PlanDay) : PlanDay :=
  { d with meals := d.meals.map (fun meal =>
      { meal with ingredients := meal.ingredients.map (fun ing =>
          { ing with grams := f * ing.grams }) }) }

/-- Result of adjusting one day: the accepted day, the number of scaling
passes performed, and the residual variance recorded when the iteration
budget was exhausted (spec section 4.6 step 6). -/
structure DayResult where
  day : PlanDay
  iterations : Nat
  residual : Option Macros
deriving DecidableEq, Repr

/-- Modelled from the spec (section 4.6 steps 1-6): the bounded per-day
adjustment loop.  With fuel exhausted the last result is accepted and its
residual variance recorded; otherwise the day is accepted when within
tolerance, else scaled once and retried on the remaining fuel. -/
def adjustLoop (lookup : String → Option CachedIngredient) (t : UserTargets) :
    Nat → PlanDay → DayResult
  | 0, d => ⟨d, 0, some (dayVariance lookup t d)⟩
  | n + 1, d =>
    let v := dayVariance lookup t d
    if withinTolerance v then ⟨d, 0, none⟩
    else
      let r := adjustLoop lookup t n (scaleDay (scaleFactor (dayTotals lookup d) t) d)
      ⟨r.day, r.iterations + 1, r.residual⟩

/-- Modelled from the spec (section 4.6): validateAndAdjust runs the bounded
adjustment loop on every day of the plan and always returns a full plan. -/
def validateAndAdjust (lookup : String → Option CachedIngredient) (t : UserTargets)
    (days : List PlanDay) : List DayResult :=
  days.map (adjustLoop lookup t MAX_ADJUSTMENT_ITERATIONS)

/-! ## Helper lemmas -/

/-- The supported mass units of UNIT_TO_GRAMS: g, kg, oz, lb with their
spelled-out and plural variants. -/
def massUnits : List String :=
  ["g", "gram", "grams", "kg", "kilogram", "kilograms",
   "oz", "ounce", "ounces", "lb", "lbs", "pound", "pounds"]

theorem getItemWeight_mem {i : String} {w : ℚ} (h : getItemWeight i = some w) :
    ∃ p ∈ ITEM_WEIGHTS_GRAMS, p.2 = w := by
  unfold getItemWeight lookupTable itemPartialMatch at h
  rcases hf : ITEM_WEIGHTS_GRAMS.find? (fun p => p.1 = i) with _ | p
  · rw [hf] at h
    simp only [Option.map_none'] at h
    rcases hg : ITEM_WEIGHTS_GRAMS.find? (fun p =>
        strIncludes i p.1 || strIncludes p.1 i) with _ | q
    · rw [hg] at h; simp at h
    · rw [hg] at h
      simp only [Option.map_some', Option.some.injEq] at h
      exact ⟨q, List.mem_of_find?_eq_some hg, h⟩
  · rw [hf] at h
    simp only [Option.map_some'] at h
    by_cases hz : p.2 = 0
    · rw [if_pos hz] at h
      rcases hg : ITEM_WEIGHTS_GRAMS.find? (fun p =>
          strIncludes i p.1 || strIncludes p.1 i) with _ | q
      · rw [hg] at h; simp at h
      · rw [hg] at h
        simp only [Option.map_some', Option.some.injEq] at h
        exact ⟨q, List.mem_of_find?_eq_some hg, h⟩
    · rw [if_neg hz] at h
      exact ⟨p, List.mem_of_find?_eq_some hf, Option.some.injEq .. |>.mp h⟩

theorem itemWeights_pos : ∀ p ∈ ITEM_WEIGHTS_GRAMS, p.2 ≠ 0 := by decide

theorem getItemWeight_ne_zero {i : String} {w : ℚ} (h : getItemWeight i = some w) : w ≠ 0 := by
  obtain ⟨p, hp, hw⟩ := getItemWeight_mem h
  exact hw ▸ itemWeights_pos p hp

theorem truthyItemWeight_eq {i : String} {w : ℚ} (h : getItemWeight i = some w) :
    truthyItemWeight i = some w := by
  unfold truthyItemWeight
  rw [h]
  exact if_neg (getItemWeight_ne_zero h)

/-! ## Claim theorems -/

/-- C5: For every supported mass unit (g, kg, oz, lb and their spelled-out
and plural variants), every ingredient name, and every amount string that
parses as a number a, convertToGrams returns grams equal to a multiplied by
that unit's known conversion factor, with confidence high. -/
theorem C5_mass_units (u : String) (hu : u ∈ massUnits) (ing s : String) (a : ℚ)
    (h : jsParseFloat s = some a) :
    convertToGrams s u ing =
      { grams := a * (lookupTable UNIT_TO_GRAMS u).getD 0, confidence := .high } := by
  fin_cases hu <;> (unfold convertToGrams; rw [h]; rfl)

/-- Witness for C5 at u = "kg", amount "2.5", ingredient "sugar". -/
theorem C5_mass_units_witness :
    "kg" ∈ massUnits ∧ jsParseFloat "2.5" = some (5/2) ∧
      convertToGrams "2.5" "kg" "sugar" =
        { grams := (5/2) * (lookupTable UNIT_TO_GRAMS "kg").getD 0, confidence := .high } :=
  ⟨by decide, by decide, C5_mass_units "kg" (by decide) "sugar" "2.5" (5/2) (by decide)⟩

/-- C6: For a recognized volume unit, convertToGrams returns amount times
the base volume-to-grams conversion times the ingredient's density
multiplier, with confidence high if a non-default density multiplier (≠ 1)
was found and medium otherwise; convertToGrams("2","cup","olive oil").grams
equals 2 * 240 * 0.92 with confidence high, and
convertToGrams("2","cup","water") returns grams 480 with confidence medium. -/
theorem C6_volume_density :
    (∀ u, u ∈ volumeUnits → ∀ ing s : String, ∀ a : ℚ, jsParseFloat s = some a →
      convertToGrams s u ing =
        { grams := a * (lookupTable UNIT_TO_GRAMS u).getD 0 *
            getDensityMultiplier (jsLowerTrim ing),
          confidence :=
            if getDensityMultiplier (jsLowerTrim ing) ≠ 1 then .high else .medium }) ∧
    convertToGrams "2" "cup" "olive oil" =
      { grams := 2 * 240 * 0.92, confidence := .high } ∧
    convertToGrams "2" "cup" "water" = { grams := 480, confidence := .medium } := by
  refine ⟨fun u hu ing s a h => ?_, by decide, by decide⟩
  fin_cases hu <;> (unfold convertToGrams; rw [h]; rfl)

/-- Witness for C6 at u = "tbsp", amount "3", ingredient "honey". -/
theorem C6_volume_density_witness :
    "tbsp" ∈ volumeUnits ∧ jsParseFloat "3" = some 3 ∧
      convertToGrams "3" "tbsp" "honey" =
        { grams := 3 * (lookupTable UNIT_TO_GRAMS "tbsp").getD 0 *
            getDensityMultiplier (jsLowerTrim "honey"),
          confidence :=
            if getDensityMultiplier (jsLowerTrim "honey") ≠ 1 then .high else .medium } :=
  ⟨by decide, by decide, C6_volume_density.1 "tbsp" (by decide) "honey" "3" 3 (by decide)⟩

/-- C7: convertToGrams is total and never raises on any input: whenever the
amount string does not parse as a number, it returns exactly
grams 100 / confidence low; in particular convertToGrams("abc","cup","rice")
equals that fallback. -/
theorem C7_unparseable_fallback :
    (∀ s u ing : String, jsParseFloat s = none →
      convertToGrams s u ing = { grams := 100, confidence := .low }) ∧
    convertToGrams "abc" "cup" "rice" = { grams := 100, confidence := .low } := by
  refine ⟨fun s u ing h => ?_, by decide⟩
  unfold convertToGrams
  rw [h]

/-- Witness for C7 at amount "xyz", unit "oz", ingredient "milk". -/
theorem C7_unparseable_fallback_witness :
    jsParseFloat "xyz" = none ∧
      convertToGrams "xyz" "oz" "milk" = { grams := 100, confidence := .low } :=
  ⟨by decide, C7_unparseable_fallback.1 "xyz" "oz" "milk" (by decide)⟩

/-- C8: When the normalized unit is a countable token, empty, or itself
parses as a number, convertToGrams resolves the per-item weight through
getItemWeight (exact table match first, then substring match in the table's
insertion order, first match winning), and if a weight is found returns
amount * itemWeight with confidence high; in particular
convertToGrams("3","large","egg").grams equals 150 with confidence high. -/
theorem C8_countable_items :
    (∀ u ing s : String, ∀ a w : ℚ, jsParseFloat s = some a →
      isCountableItem (jsLowerTrim u) (jsLowerTrim ing) = true →
      getItemWeight (jsLowerTrim ing) = some w →
      convertToGrams s u ing = { grams := a * w, confidence := .high }) ∧
    convertToGrams "3" "large" "egg" = { grams := 150, confidence := .high } := by
  refine ⟨fun u ing s a w h hc hw => ?_, by decide⟩
  unfold convertToGrams
  rw [h]
  simp only [hc, if_true, truthyItemWeight_eq hw]

/-- Witness for C8 at unit "large", ingredient "egg", amount "3". -/
theorem C8_countable_items_witness :
    jsParseFloat "3" = some 3 ∧
      isCountableItem (jsLowerTrim "large") (jsLowerTrim "egg") = true ∧
      getItemWeight (jsLowerTrim "egg") = some 50 ∧
      convertToGrams "3" "large" "egg" = { grams := 3 * 50, confidence := .high } :=
  ⟨by decide, by decide, by decide,
    C8_countable_items.1 "large" "egg" "3" 3 50 (by decide) (by decide) (by decide)⟩

theorem normalizations_values_nonempty : ∀ p ∈ normalizationsTable, p.2 ≠ "" := by decide

theorem lookupNormalization_nonempty {k v : String} (h : lookupNormalization k = some v) :
    v ≠ "" := by
  unfold lookupNormalization at h
  rcases hf : normalizationsTable.find? (fun p => p.1 = k) with _ | p
  · rw [hf] at h; simp at h
  · rw [hf] at h
    simp only [Option.map_some', Option.some.injEq] at h
    exact h ▸ normalizations_values_nonempty p (List.mem_of_find?_eq_some hf)

/-- C9: The ingredient name normalizer lowercases and trims its input and
returns the synonym-table mapping when the result is a table key, otherwise
the lowercased/trimmed input unchanged; it is a pure total function (its
Lean type is String → String with no effects), and "chicken breast" maps to
"chicken broilers breast meat raw". -/
theorem C9_normalizer :
    (∀ s v : String, lookupNormalization (jsLowerTrim s) = some v →
      normalizeIngredientName s = v) ∧
    (∀ s : String, lookupNormalization (jsLowerTrim s) = none →
      normalizeIngredientName s = jsLowerTrim s) ∧
    normalizeIngredientName "chicken breast" = "chicken broilers breast meat raw" := by
  refine ⟨fun s v h => ?_, fun s h => ?_, by decide⟩
  · unfold normalizeIngredientName
    simp only [h]
    exact if_neg (lookupNormalization_nonempty h)
  · unfold normalizeIngredientName
    simp only [h]

/-- Witness for C9 on the mapped key "Chicken Breast" and the unmapped
string "dragon fruit". -/
theorem C9_normalizer_witness :
    lookupNormalization (jsLowerTrim " Chicken Breast ") =
        some "chicken broilers breast meat raw" ∧
      normalizeIngredientName " Chicken Breast " = "chicken broilers breast meat raw" ∧
      lookupNormalization (jsLowerTrim "dragon fruit") = none ∧
      normalizeIngredientName "dragon fruit" = jsLowerTrim "dragon fruit" :=
  ⟨by decide, C9_normalizer.1 " Chicken Breast " "chicken broilers breast meat raw" (by decide),
   by decide, C9_normalizer.2.1 "dragon fruit" (by decide)⟩

/-- The profile a cache row yields on the fast path. -/
def rowProfile (row : CacheRow) : CachedIngredient :=
  ⟨row.ingredient_name, row.fdc_id, row.calories_per_100g,
   row.protein_per_100g, row.carbs_per_100g, row.fat_per_100g⟩

theorem searchCalled_of_cacheMiss {env : UsdaEnv} {now : ℚ} {name : String}
    (h : cacheHit env now (jsLowerTrim name) = none) :
    (getOrFetchIngredient env now name).searchCalled = true := by
  unfold getOrFetchIngredient
  simp only [h]

/-- C2: A cache entry under the normalized name whose last_updated is
strictly less than 90 days in the past is returned directly with no
provider search call; an entry exactly 91 days old is treated as a miss and
triggers the provider search call. -/
theorem C2_cache_fast_path :
    (∀ (env : UsdaEnv) (now : ℚ) (name : String) (row : CacheRow),
      env.cacheRow (jsLowerTrim name) = some row →
      (now - row.updated_at) / (1000 * 60 * 60 * 24) < 90 →
      getOrFetchIngredient env now name =
        { result := some (rowProfile row), searchCalled := false }) ∧
    (∀ (env : UsdaEnv) (now : ℚ) (name : String) (row : CacheRow),
      env.cacheRow (jsLowerTrim name) = some row →
      now - row.updated_at = 91 * (1000 * 60 * 60 * 24) →
      (getOrFetchIngredient env now name).searchCalled = true) := by
  constructor
  · intro env now name row hrow hfresh
    have hhit : cacheHit env now (jsLowerTrim name) = some (rowProfile row) := by
      unfold cacheHit
      rw [hrow]
      exact if_pos hfresh
    unfold getOrFetchIngredient
    simp only [hhit]
  · intro env now name row hrow hstale
    apply searchCalled_of_cacheMiss
    unfold cacheHit
    rw [hrow]
    apply if_neg
    rw [hstale]
    norm_num [CACHE_EXPIRATION_DAYS]

/-- A sample cache row for witnesses (updated_at at the epoch). -/
def sampleRow : CacheRow := ⟨"egg", 171287, 143, 12.6, 0.7, 9.5, 0⟩

/-- A sample environment whose cache holds exactly the "egg" row and whose
provider endpoints always fail. -/
def sampleEnv : UsdaEnv :=
  { hasApiKey := true
    cacheRow := fun n => if n = "egg" then some sampleRow else none
    searchResponse := fun _ => none
    detailsResponse := fun _ => none
    upsertError := false }

/-- Witness for C2: a 10-day-old "egg" entry is served from the cache with
no provider call, and the same entry read 91 days after its update triggers
the provider search. -/
theorem C2_cache_fast_path_witness :
    sampleEnv.cacheRow (jsLowerTrim " Egg ") = some sampleRow ∧
      ((10 : ℚ) * (1000 * 60 * 60 * 24) - sampleRow.updated_at) / (1000 * 60 * 60 * 24) < 90 ∧
      getOrFetchIngredient sampleEnv (10 * (1000 * 60 * 60 * 24)) " Egg " =
        { result := some (rowProfile sampleRow), searchCalled := false } ∧
      (91 : ℚ) * (1000 * 60 * 60 * 24) - sampleRow.updated_at = 91 * (1000 * 60 * 60 * 24) ∧
      (getOrFetchIngredient sampleEnv (91 * (1000 * 60 * 60 * 24)) " Egg ").searchCalled = true :=
  ⟨by decide, by norm_num [sampleRow],
   C2_cache_fast_path.1 sampleEnv (10 * (1000 * 60 * 60 * 24)) " Egg " sampleRow
     (by decide) (by norm_num [sampleRow]),
   by norm_num [sampleRow],
   C2_cache_fast_path.2 sampleEnv (91 * (1000 * 60 * 60 * 24)) " Egg " sampleRow
     (by decide) (by norm_num [sampleRow])⟩

/-- C3: On a cache miss or stale entry, getOrFetchIngredient returns null
exactly when the provider yields no usable result (search error, zero
candidates, or a details error); on a successful fetch it returns the
freshly fetched profile, and the result never depends on whether the cache
upsert fails. -/
theorem C3_fetch_error_handling :
    (∀ (env : UsdaEnv) (now : ℚ) (name : String),
      cacheHit env now (jsLowerTrim name) = none →
      ((getOrFetchIngredient env now name).result = none ↔
        fetchFromProvider env (jsLowerTrim name) = none)) ∧
    (∀ (env : UsdaEnv) (nn : String) (e : Unit),
      searchFood env nn = .error e → fetchFromProvider env nn = none) ∧
    (∀ (env : UsdaEnv) (nn : String),
      searchFood env nn = .ok [] → fetchFromProvider env nn = none) ∧
    (∀ (env : UsdaEnv) (nn : String) (f : USDAFood) (rest : List USDAFood) (e : Unit),
      searchFood env nn = .ok (f :: rest) → getFoodDetails env f.fdcId = .error e →
      fetchFromProvider env nn = none) ∧
    (∀ (env : UsdaEnv) (nn : String) (f : USDAFood) (rest : List USDAFood)
        (nd : NutritionalData),
      searchFood env nn = .ok (f :: rest) → getFoodDetails env f.fdcId = .ok nd →
      fetchFromProvider env nn =
        some ⟨nn, nd.fdcId, nd.calories, nd.protein, nd.carbs, nd.fat⟩) ∧
    (∀ (env : UsdaEnv) (now : ℚ) (name : String),
      getOrFetchIngredient { env with upsertError := true } now name =
        getOrFetchIngredient { env with upsertError := false } now name) := by
  refine ⟨fun env now name h => ?_, fun env nn e hsf => ?_, fun env nn hsf => ?_,
          fun env nn f rest e hsf hgd => ?_, fun env nn f rest nd hsf hgd => ?_,
          fun env now name => rfl⟩
  · unfold getOrFetchIngredient
    simp only [h]
  · unfold fetchFromProvider
    simp only [hsf]
  · unfold fetchFromProvider
    simp only [hsf]
  · unfold fetchFromProvider
    simp only [hsf, hgd]
  · unfold fetchFromProvider
    simp only [hsf, hgd]

/-- Environment for the C3 witness: an empty cache, a provider that answers
the "tofu" query with one candidate and serves its details, and an upsert
that reports an error. -/
def sampleEnv2 : UsdaEnv :=
  { hasApiKey := true
    cacheRow := fun _ => none
    searchResponse := fun q =>
      if q = "tofu" then some [⟨521, "Tofu raw", some 90, none⟩] else none
    detailsResponse := fun fid =>
      if fid = 521 then
        some ⟨521, "Tofu raw",
          some [⟨some "Energy", some "208", some 76, none, some "KCAL", none⟩,
                ⟨some "Protein", some "203", some 8, none, some "G", none⟩]⟩
      else none
    upsertError := true }

/-- Witness for C3: on sampleEnv2 the cache misses, the fetched tofu profile
comes back even though the upsert fails, and on sampleEnv (provider always
failing) the result is null. -/
theorem C3_fetch_error_handling_witness :
    cacheHit sampleEnv2 0 (jsLowerTrim "Tofu") = none ∧
      ((getOrFetchIngredient sampleEnv2 0 "Tofu").result = none ↔
        fetchFromProvider sampleEnv2 (jsLowerTrim "Tofu") = none) ∧
      searchFood sampleEnv2 "tofu" = .ok [⟨521, "Tofu raw", some 90⟩] ∧
      getFoodDetails sampleEnv2 521 = .ok ⟨521, 76, 8, 0, 0⟩ ∧
      fetchFromProvider sampleEnv2 "tofu" = some ⟨"tofu", 521, 76, 8, 0, 0⟩ ∧
      getOrFetchIngredient { sampleEnv2 with upsertError := true } 0 "Tofu" =
        getOrFetchIngredient { sampleEnv2 with upsertError := false } 0 "Tofu" ∧
      searchFood sampleEnv "salt" = .error () ∧
      fetchFromProvider sampleEnv "salt" = none :=
  ⟨by decide,
   C3_fetch_error_handling.1 sampleEnv2 0 "Tofu" (by decide),
   rfl, rfl,
   C3_fetch_error_handling.2.2.2.2.1 sampleEnv2 "tofu" ⟨521, "Tofu raw", some 90⟩ []
     ⟨521, 76, 8, 0, 0⟩ rfl rfl,
   C3_fetch_error_handling.2.2.2.2.2 sampleEnv2 0 "Tofu",
   rfl,
   C3_fetch_error_handling.2.1 sampleEnv "salt" () rfl⟩

/-- The guard of findNutrient for one nutrient entry: a number match or a
(truthy, case-insensitive) name match. -/
def nutrientMatches (names numbers : List String) (n : USDANutrient) : Bool :=
  numbers.contains (nutrientNumberOf n) ||
    (decide (nutrientNameOf n ≠ "") && names.contains (jsToLower (nutrientNameOf n)))

theorem findNutrient_eq_zero {names numbers : List String} :
    ∀ {l : List USDANutrient}, (∀ n ∈ l, nutrientMatches names numbers n = false) →
      findNutrient names numbers l = 0 := by
  intro l
  induction l with
  | nil => intro _; rfl
  | cons n rest ih =>
    intro h
    have hn := h n (List.mem_cons_self n rest)
    unfold nutrientMatches at hn
    rw [Bool.or_eq_false_iff] at hn
    unfold findNutrient
    rw [hn.1, hn.2]
    simp only [Bool.false_eq_true, if_false]
    exact ih (fun m hm => h m (List.mem_cons_of_mem n hm))

/-- Example details response in the flat shape, from the repository's design
document ("Chicken, broilers or fryers, breast, meat only, raw"). -/
def flatFoodExample : USDAFoodDetails :=
  ⟨171705, "Chicken, broilers or fryers, breast, meat only, raw",
   some [⟨some "Energy", none, some 120, none, some "KCAL", none⟩,
         ⟨some "Protein", none, some 22.5, none, some "G", none⟩,
         ⟨some "Carbohydrate", none, some 0, none, some "G", none⟩,
         ⟨some "Total lipid (fat)", none, some 2.6, none, some "G", none⟩]⟩

/-- Example details response in the nested shape: nutrient identities under
`nutrient.name`/`nutrient.number` with values under `amount`. -/
def nestedFoodExample : USDAFoodDetails :=
  ⟨9040, "Banana raw",
   some [⟨none, none, none, some 89, none, some ⟨"Energy", "208", "KCAL"⟩⟩,
         ⟨none, none, none, some 1.1, none, some ⟨"Protein", "203", "G"⟩⟩,
         ⟨none, none, none, some 22.8, none, some ⟨"Carbohydrate, by difference", "205", "G"⟩⟩,
         ⟨none, none, none, some 0.3, none, some ⟨"Total lipid (fat)", "204", "G"⟩⟩]⟩

/-- Example showing that the numeric code is consulted before the name: a
single entry named "Protein" but numbered 208 (energy) is taken by the
calories channel through its number, and by the protein channel through its
name. -/
def priorityFoodExample : USDAFoodDetails :=
  ⟨1, "priority check", some [⟨some "Protein", some "208", some 55, none, none, none⟩]⟩

/-- C4: For every raw nutrient list, in the flat or the nested shape, the
detail-extraction step obtains each of calories/protein/carbs/fat by
matching the numeric nutrient-code table first and the per-macro synonym
names (case-insensitively) second, and a macro matched by neither method is
0 — never null or missing, since extractNutrients always returns all four
rational fields. -/
theorem C4_extract_nutrients :
    (∀ food : USDAFoodDetails,
      (∀ n ∈ food.foodNutrients.getD [], nutrientMatches calorieNames caloriesNumbers n = false) →
      (extractNutrients food).calories = 0) ∧
    (∀ food : USDAFoodDetails,
      (∀ n ∈ food.foodNutrients.getD [], nutrientMatches proteinNames proteinNumbers n = false) →
      (extractNutrients food).protein = 0) ∧
    (∀ food : USDAFoodDetails,
      (∀ n ∈ food.foodNutrients.getD [], nutrientMatches carbNames carbsNumbers n = false) →
      (extractNutrients food).carbs = 0) ∧
    (∀ food : USDAFoodDetails,
      (∀ n ∈ food.foodNutrients.getD [], nutrientMatches fatNames fatNumbers n = false) →
      (extractNutrients food).fat = 0) ∧
    extractNutrients flatFoodExample = ⟨171705, 120, 22.5, 0, 2.6⟩ ∧
    extractNutrients nestedFoodExample = ⟨9040, 89, 1.1, 22.8, 0.3⟩ ∧
    extractNutrients priorityFoodExample = ⟨1, 55, 55, 0, 0⟩ := by
  refine ⟨fun food h => findNutrient_eq_zero h, fun food h => findNutrient_eq_zero h,
          fun food h => findNutrient_eq_zero h, fun food h => findNutrient_eq_zero h,
          by decide, by decide, by decide⟩

/-- Witness for C4: a food whose only nutrient is fiber (number 291) matches
no macro channel, and all four extracted macros are 0. -/
def fiberOnlyFood : USDAFoodDetails :=
  ⟨7, "fiber only", some [⟨some "Fiber, total dietary", some "291", some 10, none, none, none⟩]⟩

/-- Witness for C4 applying every defaulting conjunct to fiberOnlyFood. -/
theorem C4_extract_nutrients_witness :
    (∀ n ∈ fiberOnlyFood.foodNutrients.getD [],
      nutrientMatches calorieNames caloriesNumbers n = false) ∧
      (extractNutrients fiberOnlyFood).calories = 0 ∧
      (extractNutrients fiberOnlyFood).protein = 0 ∧
      (extractNutrients fiberOnlyFood).carbs = 0 ∧
      (extractNutrients fiberOnlyFood).fat = 0 :=
  ⟨by decide,
   C4_extract_nutrients.1 fiberOnlyFood (by decide),
   C4_extract_nutrients.2.1 fiberOnlyFood (by decide),
   C4_extract_nutrients.2.2.1 fiberOnlyFood (by decide),
   C4_extract_nutrients.2.2.2.1 fiberOnlyFood (by decide)⟩

theorem adjustLoop_bound (lookup : String → Option CachedIngredient) (t : UserTargets) :
    ∀ (fuel : Nat) (d : PlanDay),
      (adjustLoop lookup t fuel d).iterations ≤ fuel ∧
      (∀ v, (adjustLoop lookup t fuel d).residual = some v →
        v = dayVariance lookup t (adjustLoop lookup t fuel d).day) := by
  intro fuel
  induction fuel with
  | zero =>
    intro d
    exact ⟨Nat.le_refl 0, fun v hv => by
      simp only [adjustLoop, Option.some.injEq] at hv
      simp [adjustLoop, hv]⟩
  | succ n ih =>
    intro d
    unfold adjustLoop
    by_cases hw : withinTolerance (dayVariance lookup t d) = true
    · simp only [hw, if_true]
      exact ⟨Nat.zero_le _, fun v hv => by simp at hv⟩
    · simp only [hw, if_false]
      obtain ⟨h1, h2⟩ := ih (scaleDay (scaleFactor (dayTotals lookup d) t) d)
      exact ⟨Nat.succ_le_succ h1, h2⟩

/-- C1: validateAndAdjust terminates on every input plan: the per-day retry
loop is bounded by the fixed MAX_ADJUSTMENT_ITERATIONS, a result is produced
for every day of the plan (the operation never loops indefinitely or fails),
and when tolerance is not met within the budget the last result is accepted
with its residual variance recorded. -/
theorem C1_validator_terminates :
    (∀ (lookup : String → Option CachedIngredient) (t : UserTargets) (days : List PlanDay),
      (validateAndAdjust lookup t days).length = days.length) ∧
    (∀ (lookup : String → Option CachedIngredient) (t : UserTargets) (days : List PlanDay),
      ∀ r ∈ validateAndAdjust lookup t days, r.iterations ≤ MAX_ADJUSTMENT_ITERATIONS) ∧
    (∀ (lookup : String → Option CachedIngredient) (t : UserTargets) (days : List PlanDay),
      ∀ r ∈ validateAndAdjust lookup t days, ∀ v, r.residual = some v →
        v = dayVariance lookup t r.day) := by
  refine ⟨fun lookup t days => List.length_map days _, ?_, ?_⟩
  · intro lookup t days r hr
    obtain ⟨d, _, rfl⟩ := List.mem_map.mp hr
    exact (adjustLoop_bound lookup t MAX_ADJUSTMENT_ITERATIONS d).1
  · intro lookup t days r hr
    obtain ⟨d, _, rfl⟩ := List.mem_map.mp hr
    exact (adjustLoop_bound lookup t MAX_ADJUSTMENT_ITERATIONS d).2

/-- A day that can never meet tolerance: its sole ingredient has a zero
macro estimate and no lookup succeeds, so daily totals stay at zero. -/
def stuckDay : PlanDay := ⟨"monday", [⟨"mystery", [⟨"unobtainium", 100, zeroMacros⟩]⟩]⟩

/-- Sample daily targets for the C1 witness. -/
def sampleTargets : UserTargets := ⟨2000, 150, 200, 70⟩

/-- The lookup that always fails, for the C1 witness. -/
def emptyLookup : String → Option CachedIngredient := fun _ => none

/-- Witness for C1 on a one-day plan that exhausts the iteration budget:
the plan comes back with one day result, its iteration count is within the
bound, and the recorded residual is the variance of the accepted day. -/
theorem C1_validator_terminates_witness :
    (validateAndAdjust emptyLookup sampleTargets [stuckDay]).length = 1 ∧
      (∀ r ∈ validateAndAdjust emptyLookup sampleTargets [stuckDay],
        r.iterations ≤ MAX_ADJUSTMENT_ITERATIONS) ∧
      (adjustLoop emptyLookup sampleTargets MAX_ADJUSTMENT_ITERATIONS stuckDay).residual =
        some ⟨-1, -1, -1, -1⟩ ∧
      (⟨-1, -1, -1, -1⟩ : Macros) =
        dayVariance emptyLookup sampleTargets
          (adjustLoop emptyLookup sampleTargets MAX_ADJUSTMENT_ITERATIONS stuckDay).day :=
  ⟨C1_validator_terminates.1 emptyLookup sampleTargets [stuckDay],
   C1_validator_terminates.2.1 emptyLookup sampleTargets [stuckDay],
   by decide,
   C1_validator_terminates.2.2 emptyLookup sampleTargets [stuckDay]
     (adjustLoop emptyLookup sampleTargets MAX_ADJUSTMENT_ITERATIONS stuckDay)
     (by decide) ⟨-1, -1, -1, -1⟩ (by decide)⟩

/-! ## String normalization lemmas (for C10) -/

theorem char_toNat_ofNat_valid {m : Nat} (h : m.isValidChar) : (Char.ofNat m).toNat = m := by
  rw [Char.ofNat, dif_pos h]
  rfl

theorem char_toLower_toLower (c : Char) : c.toLower.toLower = c.toLower := by
  unfold Char.toLower
  by_cases h : c.toNat ≥ 65 ∧ c.toNat ≤ 90
  · rw [if_pos h]
    have hv : (Char.ofNat (c.toNat + 32)).toNat = c.toNat + 32 :=
      char_toNat_ofNat_valid (Or.inl (by omega))
    rw [if_neg]
    rw [hv]
    omega
  · rw [if_neg h, if_neg h]

theorem char_ne_of_toNat_ne {c d : Char} (h : c.toNat ≠ d.toNat) : c ≠ d :=
  fun he => h (congrArg Char.toNat he)

theorem char_isWhitespace_toLower (c : Char) : c.toLower.isWhitespace = c.isWhitespace := by
  unfold Char.toLower
  by_cases h : c.toNat ≥ 65 ∧ c.toNat ≤ 90
  · rw [if_pos h]
    have hv : (Char.ofNat (c.toNat + 32)).toNat = c.toNat + 32 :=
      char_toNat_ofNat_valid (Or.inl (by omega))
    have hsp : (' ' : Char).toNat = 32 := rfl
    have htab : ('\t' : Char).toNat = 9 := rfl
    have hcr : ('\r' : Char).toNat = 13 := rfl
    have hnl : ('\n' : Char).toNat = 10 := rfl
    have e1 : Char.ofNat (c.toNat + 32) ≠ ' ' := char_ne_of_toNat_ne (by omega)
    have e2 : Char.ofNat (c.toNat + 32) ≠ '\t' := char_ne_of_toNat_ne (by omega)
    have e3 : Char.ofNat (c.toNat + 32) ≠ '\r' := char_ne_of_toNat_ne (by omega)
    have e4 : Char.ofNat (c.toNat + 32) ≠ '\n' := char_ne_of_toNat_ne (by omega)
    have f1 : c ≠ ' ' := char_ne_of_toNat_ne (by omega)
    have f2 : c ≠ '\t' := char_ne_of_toNat_ne (by omega)
    have f3 : c ≠ '\r' := char_ne_of_toNat_ne (by omega)
    have f4 : c ≠ '\n' := char_ne_of_toNat_ne (by omega)
    simp [Char.isWhitespace, e1, e2, e3, e4, f1, f2, f3, f4]
  · rw [if_neg h]

theorem wsChar_toLower (c : Char) : wsChar c.toLower = wsChar c :=
  char_isWhitespace_toLower c

theorem dropWhile_map_toLower (l : List Char) :
    (l.map Char.toLower).dropWhile wsChar = (l.dropWhile wsChar).map Char.toLower := by
  induction l with
  | nil => rfl
  | cons c t ih =>
    simp only [List.map_cons, List.dropWhile_cons, wsChar_toLower]
    by_cases h : wsChar c = true
    · simp [h, ih]
    · simp [h]

theorem dropWhile_idem (p : Char → Bool) (l : List Char) :
    (l.dropWhile p).dropWhile p = l.dropWhile p := by
  induction l with
  | nil => rfl
  | cons c t ih =>
    by_cases h : p c = true
    · simp [List.dropWhile_cons, h, ih]
    · simp [List.dropWhile_cons, h]

theorem map_toLower_idem (l : List Char) :
    (l.map Char.toLower).map Char.toLower = l.map Char.toLower := by
  rw [List.map_map]
  exact List.map_congr_left (fun c _ => char_toLower_toLower c)

theorem ws_false_of_ltrimmed {c : Char} {t : List Char}
    (h : (c :: t).dropWhile wsChar = c :: t) : wsChar c = false := by
  by_cases hc : wsChar c = true
  · rw [List.dropWhile_cons, if_pos hc] at h
    have hle := (List.dropWhile_suffix (l := t) wsChar).length_le
    rw [h] at hle
    simp at hle
  · simpa using hc

theorem ltrim_rtrim {a : List Char} (h : a.dropWhile wsChar = a) :
    (rtrimChars a).dropWhile wsChar = rtrimChars a := by
  cases a with
  | nil => rfl
  | cons c t =>
    have hc : wsChar c = false := ws_false_of_ltrimmed h
    unfold rtrimChars
    rcases List.eq_nil_or_concat ((c :: t).reverse.dropWhile wsChar) with hD | ⟨D, x, hD⟩
    · rw [hD]; rfl
    · obtain ⟨pre, hpre⟩ := List.dropWhile_suffix (l := (c :: t).reverse) wsChar
      have hrev : (c :: t).reverse = t.reverse ++ [c] := by simp
      have h1 : (pre ++ ((c :: t).reverse.dropWhile wsChar)).getLast? = some x := by
        rw [hD, List.concat_eq_append, ← List.append_assoc, List.getLast?_concat]
      rw [hpre, hrev, List.getLast?_concat] at h1
      have hx : x = c := (Option.some.inj h1).symm
      rw [hD, List.concat_eq_append, hx, List.reverse_append]
      simp only [List.reverse_cons, List.reverse_nil, List.nil_append, List.singleton_append]
      rw [List.dropWhile_cons, if_neg (by simp [hc])]

theorem ltrim_rtrim_ltrim (m : List Char) :
    ltrimChars (rtrimChars (ltrimChars m)) = rtrimChars (ltrimChars m) :=
  ltrim_rtrim (dropWhile_idem wsChar m)

theorem rtrim_idem (l : List Char) : rtrimChars (rtrimChars l) = rtrimChars l := by
  unfold rtrimChars
  rw [List.reverse_reverse]
  exact congrArg List.reverse (dropWhile_idem wsChar l.reverse)

theorem rtrim_map_toLower (l : List Char) :
    (rtrimChars l).map Char.toLower = rtrimChars (l.map Char.toLower) := by
  unfold rtrimChars
  rw [List.map_reverse, ← dropWhile_map_toLower, List.map_reverse]

theorem ltrim_map_toLower (l : List Char) :
    (ltrimChars l).map Char.toLower = ltrimChars (l.map Char.toLower) := by
  unfold ltrimChars
  rw [dropWhile_map_toLower]

theorem jsLowerTrim_idem (s : String) : jsLowerTrim (jsLowerTrim s) = jsLowerTrim s := by
  unfold jsLowerTrim
  apply congrArg String.mk
  show rtrimChars (ltrimChars ((rtrimChars (ltrimChars (s.data.map Char.toLower))).map
    Char.toLower)) = rtrimChars (ltrimChars (s.data.map Char.toLower))
  rw [rtrim_map_toLower, ltrim_map_toLower, map_toLower_idem]
  rw [ltrim_rtrim_ltrim]
  exact rtrim_idem _

theorem normalize_of_lookup_some {s v : String}
    (h : lookupNormalization (jsLowerTrim s) = some v) : normalizeIngredientName s = v := by
  unfold normalizeIngredientName
  simp only [h]
  exact if_neg (lookupNormalization_nonempty h)

theorem normalize_of_lookup_none {s : String}
    (h : lookupNormalization (jsLowerTrim s) = none) :
    normalizeIngredientName s = jsLowerTrim s := by
  unfold normalizeIngredientName
  simp only [h]

theorem lookupNormalization_mem {k v : String} (h : lookupNormalization k = some v) :
    ∃ p ∈ normalizationsTable, p.2 = v := by
  unfold lookupNormalization at h
  rcases hf : normalizationsTable.find? (fun p => p.1 = k) with _ | p
  · rw [hf] at h; simp at h
  · rw [hf] at h
    simp only [Option.map_some', Option.some.injEq] at h
    exact ⟨p, List.mem_of_find?_eq_some hf, h⟩

theorem normalization_values_fixed :
    ∀ p ∈ normalizationsTable, jsLowerTrim p.2 = p.2 ∧ lookupNormalization p.2 = none := by
  decide

/-- C10: The ingredient name normalizer is idempotent: applying it twice
equals applying it once, because every synonym-table value is already
lowercase and trimmed and no table value is itself a table key. -/
theorem C10_normalizer_idempotent (s : String) :
    normalizeIngredientName (normalizeIngredientName s) = normalizeIngredientName s := by
  cases h : lookupNormalization (jsLowerTrim s) with
  | none =>
    rw [normalize_of_lookup_none h]
    have h2 : lookupNormalization (jsLowerTrim (jsLowerTrim s)) = none := by
      rw [jsLowerTrim_idem]
      exact h
    rw [normalize_of_lookup_none h2, jsLowerTrim_idem]
  | some v =>
    rw [normalize_of_lookup_some h]
    obtain ⟨p, hp, hv⟩ := lookupNormalization_mem h
    obtain ⟨hfix, hnone⟩ := normalization_values_fixed p hp
    have hlt : jsLowerTrim v = v := hv ▸ hfix
    have hn : lookupNormalization (jsLowerTrim v) = none := by
      rw [hlt]
      exact hv ▸ hnone
    rw [normalize_of_lookup_none hn, hlt]

end FuelRx
